import Mathlib

/-!
Verification of `print_team.py` against its specification.

The script is a linear pipeline: read a CSV of team records, extract an
NCBI accession and an optional integer subrange from each record's URL,
fetch the FASTA sequence, and print a per-record report.  Python strings
are modelled as Lean `String`/`List Char` (sequences of code points),
Python `None`-or-value results as `Option`, raised exceptions as
`Except.error`, and console output as a `List String` of printed lines.
The external pieces (pandas dataframe, the Entrez network call) are
modelled as explicit parameters; everything else is translated directly
from the source.
-/

namespace PrintTeam

/-- Model of Python `str.upper()` applied to one character, for the ASCII
range: code points 97-122 (lowercase letters) are shifted down by 32,
everything else is unchanged.  (Python's `upper` also handles non-ASCII
letters; the sequences handled by the script are ASCII nucleotide codes,
so the model restricts to ASCII.) -/
def pyUpperChar (c : Char) : Char :=
  if 97 ≤ c.toNat ∧ c.toNat ≤ 122 then Char.ofNat (c.toNat - 32) else c

/-- Model of Python `str.upper()`: character-wise `pyUpperChar`. -/
def pyUpper (s : String) : String :=
  String.mk (s.data.map pyUpperChar)

/-- Translation of `gc_content` (print_team.py lines 87-97):
uppercase the sequence, return 0.0 on empty input, otherwise
`((count 'G' + count 'C') / length) * 100`.  Python float division is
modelled by exact rational division. -/
def gc_content (seq_str : String) : ℚ :=
  let seq := pyUpper seq_str
  if seq.length = 0 then 0
  else (((seq.data.count ('G') + seq.data.count ('C') : ℕ) : ℚ) / (seq.length : ℚ)) * 100

/-- The fixed preview window `preview_len = 60` (print_team.py line 158). -/
def preview_len : Nat := 60

/-- Translation of the preview expression printed at print_team.py line 164:
`dna_str[:preview_len] + ("…" if len(dna_str) > preview_len else "")`. -/
def preview (dna_str : String) : String :=
  String.mk (dna_str.data.take preview_len ++
    (if preview_len < dna_str.length then [('…')] else []))

/-- Hexadecimal value of a character, as used by percent-decoding in
`urllib.parse.unquote`. -/
def hexVal (c : Char) : Option Nat :=
  if 48 ≤ c.toNat ∧ c.toNat ≤ 57 then some (c.toNat - 48)
  else if 97 ≤ c.toNat ∧ c.toNat ≤ 102 then some (c.toNat - 87)
  else if 65 ≤ c.toNat ∧ c.toNat ≤ 70 then some (c.toNat - 55)
  else none

/-- Model of `value.replace('+', ' ')` followed by `urllib.parse.unquote`:
`+` becomes a space, `%hh` with two hex digits becomes the character with
that code, and anything else is kept verbatim.  (Multi-byte UTF-8 percent
sequences are decoded byte-wise here; the query values the script meets
are ASCII.) -/
def unquotePlus : List Char → List Char
  | [] => []
  | '+' :: cs => ' ' :: unquotePlus cs
  | '%' :: c1 :: c2 :: cs =>
    match hexVal c1, hexVal c2 with
    | some h, some l => Char.ofNat (16 * h + l) :: unquotePlus cs
    | _, _ => '%' :: unquotePlus (c1 :: c2 :: cs)
  | c :: cs => c :: unquotePlus cs

/-- Split a query pair at its first `=`, as `parse_qsl` does with
`name_value.split('=', 1)`; `none` when the pair has no `=`. -/
def splitEq (pair : List Char) : Option (List Char × List Char) :=
  let n := pair.takeWhile (fun ch => ch ≠ '=')
  if n.length = pair.length then none
  else some (n, pair.drop (n.length + 1))

/-- Model of `urllib.parse.parse_qs` with default arguments, as an ordered
list of name/value pairs: the query splits on `&`; empty pairs, pairs
without `=`, and pairs with an empty value are skipped
(`keep_blank_values=False`); names and values are plus-replaced and
percent-decoded. -/
def parse_qsl (query : List Char) : List (String × String) :=
  (query.splitOn '&').filterMap fun pair =>
    match splitEq pair with
    | none => none
    | some (n, v) =>
      if v = [] then none
      else some (String.mk (unquotePlus n), String.mk (unquotePlus v))

/-- Lookup in the parsed query: `qs[k][0]` is the first value recorded for
key `k`, and `k in qs` holds exactly when this is `some`. -/
def qsGet (qsl : List (String × String)) (k : String) : Option String :=
  (qsl.find? (fun p => p.1 == k)).map (fun p => p.2)

/-- Model of the query component returned by `urllib.parse.urlparse`: the
URL is left-stripped of C0 controls and spaces, tabs and newlines are
removed everywhere, and the query is what follows the first `?` of the
part before the first `#`.  (Scheme and netloc handling cannot move the
first `?`, so they are not modelled; the bracketed-host `ValueError` of
`urlsplit` is outside the model and bracket-free URLs are assumed where
it matters.) -/
def urlQuery (url : List Char) : List Char :=
  let u := url.dropWhile (fun ch => ch.toNat ≤ 32)
  let u := u.filter (fun ch => !(ch == '\t' || ch == '\r' || ch == '\n'))
  let preFrag := u.takeWhile (fun ch => ch != '#')
  (preFrag.dropWhile (fun ch => ch != '?')).drop 1

/-- The literal path marker of the accession regex. -/
def nuccoreMarker : List Char := "/nuccore/".data

/-- Model of `re.search(r"/nuccore/([^?]+)", url)` (print_team.py line 48):
scan left to right for an occurrence of `/nuccore/` that is followed by at
least one character other than `?`, and capture the maximal run of
non-`?` characters after the marker. -/
def reSearchNuccore : List Char → Option (List Char)
  | [] => none
  | c :: cs =>
    if (c :: cs).take 9 = nuccoreMarker then
      let cap := ((c :: cs).drop 9).takeWhile (fun ch => ch != '?')
      if cap = [] then reSearchNuccore cs else some cap
    else reSearchNuccore cs

/-- Strip leading and trailing whitespace, as `int()` does before parsing.
(Python also strips non-ASCII whitespace; the model covers the ASCII
whitespace recognised by `Char.isWhitespace`.) -/
def pyStrip (s : List Char) : List Char :=
  ((s.dropWhile Char.isWhitespace).reverse.dropWhile Char.isWhitespace).reverse

/-- After the first digit of an integer literal: digits, with single
underscores allowed between digits (`int("1_0") == 10`). -/
def pyDigitsRest : List Char → Bool
  | [] => true
  | '_' :: c :: cs => c.isDigit && pyDigitsRest cs
  | '_' :: [] => false
  | c :: cs => c.isDigit && pyDigitsRest cs

/-- A nonempty run of digits with single underscores between digits. -/
def pyDigits : List Char → Bool
  | [] => false
  | c :: cs => c.isDigit && pyDigitsRest cs

/-- Numeric value of a digit run, ignoring underscores. -/
def digitsVal (ds : List Char) : Int :=
  ds.foldl (fun acc c => if c = '_' then acc else acc * 10 + ((c.toNat - 48 : Nat) : Int)) 0

/-- Model of Python `int(s)` on a string: strip whitespace, allow one
leading sign, then a digit run; `none` models the `ValueError` raised on
anything else.  (Python also accepts non-ASCII decimal digits; the model
covers ASCII digits.) -/
def pyInt (s : String) : Option Int :=
  match pyStrip s.data with
  | '+' :: ds => if pyDigits ds then some (digitsVal ds) else none
  | '-' :: ds => if pyDigits ds then some (-(digitsVal ds)) else none
  | ds => if pyDigits ds then some (digitsVal ds) else none

/-- Translation of `parse_url` (print_team.py lines 42-55).  Returns the
tuple `(accession, start, end)`; `Except.error` models the `ValueError`
raised by `int(qs["from"][0])` or `int(qs["to"][0])` when the query value
is not integer-valued (the `from` line runs first, as in the source). -/
def parse_url (url : String) : Except String (Option String × Option Int × Option Int) :=
  let accession := (reSearchNuccore url.data).map String.mk
  let qs := parse_qsl (urlQuery url.data)
  match qsGet qs ("from") with
  | some v =>
    match pyInt v with
    | none => .error (s!"invalid literal for int() with base 10: {v}")
    | some n =>
      match qsGet qs ("to") with
      | some w =>
        match pyInt w with
        | none => .error (s!"invalid literal for int() with base 10: {w}")
        | some m => .ok (accession, some n, some m)
      | none => .ok (accession, some n, none)
  | none =>
    match qsGet qs ("to") with
    | some w =>
      match pyInt w with
      | none => .error (s!"invalid literal for int() with base 10: {w}")
      | some m => .ok (accession, none, some m)
    | none => .ok (accession, none, none)

/-- The keyword arguments assembled by `fetch_dna_sequence`
(print_team.py lines 66-74).  `range` models the presence of the pair of
entries `seq_start`/`seq_stop`, which the source adds together or not at
all. -/
structure FetchArgs where
  db : String
  id : String
  rettype : String
  retmode : String
  range : Option (Int × Int)
  deriving DecidableEq

/-- Translation of the argument-building part of `fetch_dna_sequence`:
the base arguments plus `seq_start`/`seq_stop` exactly when
`start is not None and end is not None`. -/
def fetch_args (accession : String) (start stop : Option Int) : FetchArgs :=
  { db := ("nuccore"), id := accession, rettype := ("fasta"), retmode := ("text"),
    range :=
      match start, stop with
      | some s, some e => some (s, e)
      | _, _ => none }

/-- The part of the fetched FASTA record the script uses: the header
identifier `seq_record.id` and the sequence string `str(seq_record.seq)`. -/
structure SeqRecord where
  id : String
  seq : String
  deriving DecidableEq

/-- Translation of `fetch_dna_sequence` (print_team.py lines 60-82).  The
network call `Entrez.efetch`/`SeqIO.read` is external and is modelled by
the oracle `net`; any exception from it (`Except.error`) is caught, the
two diagnostic lines are printed, and `None` is returned.  On success
nothing is printed and the record is returned. -/
def fetch_dna_sequence (net : FetchArgs → Except String SeqRecord)
    (accession : String) (start stop : Option Int) : List String × Option SeqRecord :=
  match net (fetch_args accession start stop) with
  | .ok seq_record => ([], some seq_record)
  | .error e => ([("⚠️  Error while fetching DNA sequence:"), s!"   {e}"], none)

/-- The separator line `"=" * 70`. -/
def sep70 : String := String.mk (List.replicate 70 '=')

/-- Model of the Python truthiness idiom `value or 'N/A'` for strings:
the empty string is the only falsy string value. -/
def orNA (s : String) : String := if s = ("") then ("N/A") else s

/-- Translation of `print_summary` (print_team.py lines 102-119), as the
list of printed lines.  The `url` parameter is accepted and unused, as in
the source. -/
def print_summary (name username country hobby affil url github_url linkedin_url : String) :
    List String :=
  [sep70,
   s!"Name        : {name}",
   s!"Slack user  : {username}",
   s!"Country     : {country}",
   s!"Hobby       : {hobby}",
   s!"Affiliations: {affil}",
   (""),
   s!"GitHub URL   : {orNA github_url}",
   s!"LinkedIn URL : {orNA linkedin_url}",
   ("")]

/-- Model of the pandas dataframe as the script uses it: a list of column
names, a cell accessor, and a row count. -/
structure DataFrame where
  columns : List String
  cell : Nat → String → String
  nrows : Nat

/-- Decimal formatting of the GC percentage, modelling `f"{gc_pct:.2f}"`
on the exact rational value (round half up to two decimal places). -/
def format2 (q : ℚ) : String :=
  let n : Int := Int.floor (q * 100 + 1 / 2)
  let w := n / 100
  let f := (n % 100).toNat
  let fs := if f < 10 then ("0") ++ toString f else toString f
  s!"{w}.{fs}"

/-- Translation of the part of `process_team_member` after the summary
block (print_team.py lines 144-174): accession extraction, fetch, and the
sequence report lines, with the returned success flag.  An uncaught
`ValueError` from `parse_url` propagates as `Except.error`. -/
def member_tail (net : FetchArgs → Except String SeqRecord) (url : String) :
    List String × Except String Bool :=
  match parse_url url with
  | .error e => ([], .error e)
  | .ok (accession, start, stop) =>
    match accession with
    | none => ([("⚠️  Could not find an accession in the URL – skipping DNA fetch.")], .ok false)
    | some acc =>
      match fetch_dna_sequence net acc start stop with
      | (fetchOut, none) => (fetchOut, .ok false)
      | (fetchOut, some seq_record) =>
        let dna_str := seq_record.seq
        let len := dna_str.length
        let rid := seq_record.id
        let gcs := format2 (gc_content dna_str)
        (fetchOut ++
          [s!"DNA (FASTA header) : {rid}",
           s!"Length               : {len} bp",
           ("First 60 bases       :"),
           preview dna_str,
           s!"GC content           : {gcs}%",
           (""),
           sep70,
           ("")], .ok true)

/-- Translation of `process_team_member` (print_team.py lines 124-174):
the static fields are read (the optional `github_url`/`linkedin_url`
columns fall back to the empty string when absent), the summary block is
printed first, and then the accession/fetch/report part runs.  The output
is the list of printed lines together with the return value. -/
def process_team_member (net : FetchArgs → Except String SeqRecord)
    (df : DataFrame) (i : Nat) : List String × Except String Bool :=
  let name := df.cell i ("name")
  let username := df.cell i ("username")
  let country := df.cell i ("country")
  let hobby := df.cell i ("hobby")
  let affil := df.cell i ("affiliations")
  let url := df.cell i ("url")
  let github_url := if ("github_url") ∈ df.columns then df.cell i ("github_url") else ("")
  let linkedin_url := if ("linkedin_url") ∈ df.columns then df.cell i ("linkedin_url") else ("")
  let summary := print_summary name username country hobby affil url github_url linkedin_url
  let t := member_tail net url
  (summary ++ t.1, t.2)

/-- The per-record progress line printed by `main` (print_team.py line 192). -/
def progressLine (df : DataFrame) (i : Nat) : String :=
  let j := i + 1
  let n := df.nrows
  s!"Processing member {j} of {n}:"

/-- Translation of the loop body of `main` (print_team.py lines 191-193)
over a list of row indices: each iteration prints the progress line and
the record's output; the return value of `process_team_member` is not
inspected, so the loop continues after a caught per-record failure, but
an uncaught exception aborts the run. -/
def run_from (net : FetchArgs → Except String SeqRecord) (df : DataFrame) :
    List Nat → List String
  | [] => []
  | i :: rest =>
    let r := process_team_member net df i
    progressLine df i :: r.1 ++ (if (r.2).isOk then run_from net df rest else [])

/-- The run-level header lines printed by `main` (print_team.py lines 187-189). -/
def headerLines (df : DataFrame) : List String :=
  let n := df.nrows
  [sep70, s!"📊 Processing {n} team members...", sep70]

/-- Translation of `main` (print_team.py lines 179-193) for a successfully
loaded dataframe: the header followed by the loop over all rows. -/
def main (net : FetchArgs → Except String SeqRecord) (df : DataFrame) : List String :=
  headerLines df ++ run_from net df (List.range df.nrows)

/-! ### Helper lemmas about the composition statistic -/

/-- Uppercasing is idempotent on characters. -/
theorem pyUpperChar_idem (c : Char) : pyUpperChar (pyUpperChar c) = pyUpperChar c := by
  by_cases h : 97 ≤ c.toNat ∧ c.toNat ≤ 122
  · obtain ⟨n, h1, h2, rfl⟩ : ∃ n, 97 ≤ n ∧ n ≤ 122 ∧ c = Char.ofNat n :=
      ⟨c.toNat, h.1, h.2, (Char.ofNat_toNat c).symm⟩
    interval_cases n <;> decide
  · simp [pyUpperChar, h]

/-- Uppercasing is idempotent on strings. -/
theorem pyUpper_idem (s : String) : pyUpper (pyUpper s) = pyUpper s := by
  unfold pyUpper
  refine congrArg String.mk ?_
  show (s.data.map pyUpperChar).map pyUpperChar = s.data.map pyUpperChar
  rw [List.map_map]
  exact List.map_congr_left fun a _ => pyUpperChar_idem a

/-- A character uppercases to `G` or `C` exactly when it is one of
`G`, `C`, `g`, `c`. -/
theorem pyUpperChar_GC (c : Char) :
    ((pyUpperChar c == 'G') || (pyUpperChar c == 'C')) =
      (c == 'G' || c == 'C' || c == 'g' || c == 'c') := by
  by_cases h : 97 ≤ c.toNat ∧ c.toNat ≤ 122
  · obtain ⟨n, h1, h2, rfl⟩ : ∃ n, 97 ≤ n ∧ n ≤ 122 ∧ c = Char.ofNat n :=
      ⟨c.toNat, h.1, h.2, (Char.ofNat_toNat c).symm⟩
    interval_cases n <;> decide
  · have hg : (c == 'g') = false := by
      rw [beq_eq_false_iff_ne]
      intro e
      exact h (by subst e; decide)
    have hc : (c == 'c') = false := by
      rw [beq_eq_false_iff_ne]
      intro e
      exact h (by subst e; decide)
    rw [pyUpperChar, if_neg h, hg, hc]
    simp

/-- The G-count plus the C-count never exceeds the length. -/
theorem count_G_add_count_C_le (l : List Char) :
    l.count ('G') + l.count ('C') ≤ l.length := by
  induction l with
  | nil => simp
  | cons a l ih =>
    rw [List.count_cons, List.count_cons, List.length_cons]
    by_cases hG : (a == 'G') = true
    · have hC : (a == 'C') = false := by
        rw [beq_iff_eq] at hG
        rw [hG]
        decide
      rw [hG, hC]
      simp
      omega
    · rw [Bool.not_eq_true] at hG
      rw [hG]
      by_cases hC : (a == 'C') = true
      · rw [hC]
        simp
        omega
      · rw [Bool.not_eq_true] at hC
        rw [hC]
        simp
        omega

/-- Counting `G` and `C` after uppercasing counts exactly the characters
`G`, `C`, `g`, `c` of the original list. -/
theorem count_GC_upper (l : List Char) :
    (l.map pyUpperChar).count ('G') + (l.map pyUpperChar).count ('C') =
      l.countP (fun c => c == 'G' || c == 'C' || c == 'g' || c == 'c') := by
  induction l with
  | nil => rfl
  | cons a l ih =>
    rw [List.map_cons, List.count_cons, List.count_cons, List.countP_cons]
    have hgc := pyUpperChar_GC a
    cases hG : (pyUpperChar a == 'G')
    · cases hC : (pyUpperChar a == 'C')
      · rw [hG, hC] at hgc
        simp only [Bool.or_self] at hgc
        simp only [← hgc]
        simp
        omega
      · rw [hG, hC] at hgc
        simp only [Bool.false_or] at hgc
        simp only [← hgc]
        simp
        omega
    · have hCf : (pyUpperChar a == 'C') = false := by
        rw [beq_iff_eq] at hG
        rw [hG]
        decide
      rw [hG, hCf] at hgc
      simp only [Bool.true_or] at hgc
      rw [hCf]
      simp only [← hgc]
      simp
      omega

/-- Length is preserved by the uppercasing step. -/
theorem pyUpper_length (s : String) : (pyUpper s).length = s.length := by
  show (s.data.map pyUpperChar).length = s.data.length
  exact List.length_map _ _

/-! ### Claim theorems: composition statistic -/

/-- C3: for every sequence string `s`, `gc_content s` lies in the closed
interval `[0, 100]`, and `gc_content ""` is exactly `0`; the function is
total by construction. -/
theorem gc_content_bounds (s : String) :
    0 ≤ gc_content s ∧ gc_content s ≤ 100 ∧ gc_content ("") = 0 := by
  refine ⟨?_, ?_, rfl⟩
  · by_cases h : (pyUpper s).length = 0
    · simp [gc_content, h]
    · simp only [gc_content, h, if_false]
      positivity
  · by_cases h : (pyUpper s).length = 0
    · simp [gc_content, h]
    · have hlen : 0 < (pyUpper s).length := Nat.pos_of_ne_zero h
      have hc : (pyUpper s).data.count ('G') + (pyUpper s).data.count ('C') ≤
          (pyUpper s).length := count_G_add_count_C_le _
      have hl : (0 : ℚ) < ((pyUpper s).length : ℚ) := by exact_mod_cast hlen
      have hq : (((pyUpper s).data.count ('G') + (pyUpper s).data.count ('C') : ℕ) : ℚ) ≤
          ((pyUpper s).length : ℚ) := by exact_mod_cast hc
      have h1 : (((pyUpper s).data.count ('G') + (pyUpper s).data.count ('C') : ℕ) : ℚ) /
          ((pyUpper s).length : ℚ) ≤ 1 := (div_le_one hl).mpr hq
      simp only [gc_content, h, if_false]
      nlinarith [h1]

/-- C8: the composition statistic is case-insensitive —
`gc_content (pyUpper s) = gc_content s`, `gc_content "gcAT" = 50`, and
for every string the value is 100 times the count of `G`/`C`/`g`/`c`
characters divided by the total length (so other characters enter the
denominator but never the numerator). -/
theorem gc_content_case_insensitive (s : String) :
    gc_content (pyUpper s) = gc_content s
    ∧ gc_content ("gcAT") = 50
    ∧ gc_content s =
        ((s.data.countP (fun c => c == 'G' || c == 'C' || c == 'g' || c == 'c') : ℕ) : ℚ)
          / ((s.length : ℕ) : ℚ) * 100 := by
  refine ⟨?_, ?_, ?_⟩
  · unfold gc_content
    rw [pyUpper_idem]
  · have hdata : (pyUpper ("gcAT")).data = ['G', 'C', 'A', 'T'] := by decide
    have hlen : (pyUpper ("gcAT")).length = 4 := by decide
    have c1 : List.count ('G') ['G', 'C', 'A', 'T'] = 1 := by decide
    have c2 : List.count ('C') ['G', 'C', 'A', 'T'] = 1 := by decide
    simp only [gc_content, hdata, hlen, c1, c2]
    norm_num
  · by_cases h : (pyUpper s).length = 0
    · have hl : s.length = 0 := by rw [← pyUpper_length s]; exact h
      have hd : s.data = [] := by
        have : s.data.length = 0 := hl
        exact List.length_eq_zero.mp this
      simp [gc_content, h, hd, hl]
    · have hcount := count_GC_upper s.data
      have hup : (pyUpper s).data = s.data.map pyUpperChar := rfl
      simp only [gc_content, h, if_false]
      rw [hup, hcount, pyUpper_length]

/-! ### Claim theorems: preview truncation -/

/-- C5: when the fetched sequence is longer than 60 characters the
preview is exactly its first 60 characters followed by the single
truncation marker `…`; when it has 60 or fewer characters the preview is
the whole sequence with no marker. -/
theorem preview_spec (s : String) :
    (60 < s.length →
      preview s = String.mk (s.data.take 60 ++ [('…')]) ∧ (s.data.take 60).length = 60)
    ∧ (s.length ≤ 60 → preview s = s) := by
  have hlen : s.length = s.data.length := rfl
  constructor
  · intro h
    constructor
    · unfold preview preview_len
      rw [if_pos (by exact h)]
    · rw [List.length_take]
      omega
  · intro h
    unfold preview preview_len
    rw [if_neg (by omega), List.append_nil, List.take_of_length_le (by omega)]

/-- Witness for C5 at a 100-character and a 40-character sequence. -/
theorem preview_spec_witness :
    preview (String.mk (List.replicate 100 'A')) =
      String.mk ((String.mk (List.replicate 100 'A')).data.take 60 ++ [('…')])
    ∧ preview (String.mk (List.replicate 40 'A')) = String.mk (List.replicate 40 'A') :=
  ⟨((preview_spec (String.mk (List.replicate 100 'A'))).1 (by decide)).1,
   (preview_spec (String.mk (List.replicate 40 'A'))).2 (by decide)⟩

/-! ### Claim theorems: URL interpreter -/

/-- C4: the URL `https://www.ncbi.nlm.nih.gov/nuccore/NC_000010.11?from=5&to=15`
parses to the accession `NC_000010.11` verbatim (version suffix included),
start 5 and end 15. -/
theorem parse_url_accession_and_range_example :
    parse_url ("https://www.ncbi.nlm.nih.gov/nuccore/NC_000010.11?from=5&to=15") =
      .ok (some ("NC_000010.11"), some 5, some 15) := by rfl

/-- C1 counterexample: with only `from` present, `parse_url` returns a
partial range — the start is `some 5`, not absent as the claim states. -/
theorem parse_url_single_from_partial_range :
    parse_url ("https://www.ncbi.nlm.nih.gov/nuccore/NC_000010.11?from=5") =
      .ok (some ("NC_000010.11"), some 5, none)
    ∧ parse_url ("https://www.ncbi.nlm.nih.gov/nuccore/NC_000010.11?from=5") ≠
      .ok (some ("NC_000010.11"), none, none) := by
  have heq : parse_url ("https://www.ncbi.nlm.nih.gov/nuccore/NC_000010.11?from=5") =
      .ok (some ("NC_000010.11"), some 5, none) := rfl
  refine ⟨heq, ?_⟩
  intro h
  rw [heq] at h
  simp at h

/-- C1 amended: a `parse_url` result in which at least one of the range
ends is absent never yields the `seq_start`/`seq_stop` request
parameters — the fetcher requests the full sequence, so no partial range
propagates past the argument-building step. -/
theorem partial_range_never_reaches_fetch (url acc : String) (a : Option String)
    (s e : Option Int) (hp : parse_url url = .ok (a, s, e))
    (h1 : s = none ∨ e = none) :
    (fetch_args acc s e).range = none := by
  rcases h1 with h | h
  · rw [h]
    rfl
  · rw [h]
    cases s <;> rfl

/-- Witness for the amended C1 at the single-`from` URL. -/
theorem partial_range_never_reaches_fetch_witness :
    (fetch_args ("NC_000010.11") (some 5) none).range = none :=
  partial_range_never_reaches_fetch
    ("https://www.ncbi.nlm.nih.gov/nuccore/NC_000010.11?from=5") ("NC_000010.11")
    (some ("NC_000010.11")) (some 5) none (by rfl) (Or.inr rfl)

/-- C2 counterexample: a URL whose `from` value is not integer-valued
makes `parse_url` raise (`int("abc")` raises `ValueError`), so the
interpreter does not return normally on every input string. -/
theorem parse_url_raises_on_nonint_from :
    parse_url ("https://www.ncbi.nlm.nih.gov/nuccore/NC_000010.11?from=abc&to=15") =
      .error ("invalid literal for int() with base 10: abc") := by rfl

/-- C2 amended: `parse_url` returns normally on every URL whose present
`from`/`to` first values are integer-valued (for URLs without bracketed
hosts, the only raise the model leaves out); when such a value is not
integer-valued, `int()` raises and the exception propagates. -/
theorem parse_url_ok_of_int_values (url : String)
    (hbl : ('[') ∉ url.data) (hbr : (']') ∉ url.data)
    (hf : Option.all (fun v => (pyInt v).isSome)
      (qsGet (parse_qsl (urlQuery url.data)) ("from")) = true)
    (ht : Option.all (fun v => (pyInt v).isSome)
      (qsGet (parse_qsl (urlQuery url.data)) ("to")) = true) :
    (parse_url url).isOk = true := by
  unfold parse_url
  cases hq1 : qsGet (parse_qsl (urlQuery url.data)) ("from") with
  | none =>
    cases hq2 : qsGet (parse_qsl (urlQuery url.data)) ("to") with
    | none => simp [hq1, hq2, Except.isOk, Except.toBool]
    | some w =>
      rw [hq2] at ht
      simp only [Option.all_some] at ht
      obtain ⟨m, hm⟩ := Option.isSome_iff_exists.mp ht
      simp [hq1, hq2, hm, Except.isOk, Except.toBool]
  | some v =>
    rw [hq1] at hf
    simp only [Option.all_some] at hf
    obtain ⟨n, hn⟩ := Option.isSome_iff_exists.mp hf
    cases hq2 : qsGet (parse_qsl (urlQuery url.data)) ("to") with
    | none => simp [hq1, hq2, hn, Except.isOk, Except.toBool]
    | some w =>
      rw [hq2] at ht
      simp only [Option.all_some] at ht
      obtain ⟨m, hm⟩ := Option.isSome_iff_exists.mp ht
      simp [hq1, hq2, hn, hm, Except.isOk, Except.toBool]

/-- Witness for the amended C2 at the well-formed range URL. -/
theorem parse_url_ok_of_int_values_witness :
    (parse_url ("https://www.ncbi.nlm.nih.gov/nuccore/NC_000010.11?from=5&to=15")).isOk
      = true :=
  parse_url_ok_of_int_values
    ("https://www.ncbi.nlm.nih.gov/nuccore/NC_000010.11?from=5&to=15")
    (by decide) (by decide) (by decide) (by decide)

/-! ### Claim theorems: fetch arguments -/

/-- C9: the request built by the fetcher carries the
`seq_start`/`seq_stop` subrange parameters exactly when both range ends
are present; with one end absent the request has no range parameters. -/
theorem fetch_args_range_iff_both_present (accession : String) (start stop : Option Int) :
    ((fetch_args accession start stop).range).isSome = (start.isSome && stop.isSome) := by
  cases start <;> cases stop <;> rfl

/-! ### Helper lemmas and claim theorems: reporter and main loop -/

/-- The summary block is ten printed lines. -/
theorem print_summary_length
    (name username country hobby affil url github_url linkedin_url : String) :
    (print_summary name username country hobby affil url github_url linkedin_url).length
      = 10 := rfl

/-- The output of `process_team_member` is the summary block followed by
the accession/fetch part, whatever that part is. -/
theorem process_output_eq (net : FetchArgs → Except String SeqRecord)
    (df : DataFrame) (i : Nat) :
    ∃ rest, (process_team_member net df i).1 =
      print_summary (df.cell i ("name")) (df.cell i ("username")) (df.cell i ("country"))
        (df.cell i ("hobby")) (df.cell i ("affiliations")) (df.cell i ("url"))
        (if ("github_url") ∈ df.columns then df.cell i ("github_url") else (""))
        (if ("linkedin_url") ∈ df.columns then df.cell i ("linkedin_url") else (""))
        ++ rest :=
  ⟨(member_tail net (df.cell i ("url"))).1, rfl⟩

/-- C10: for every record the first ten printed lines are exactly the
identity and contact-link block — it is emitted before accession
extraction and before any fetch attempt, hence also for records whose
URL yields no accession or whose fetch fails. -/
theorem identity_block_printed_first (net : FetchArgs → Except String SeqRecord)
    (df : DataFrame) (i : Nat) :
    (process_team_member net df i).1.take 10 =
      print_summary (df.cell i ("name")) (df.cell i ("username")) (df.cell i ("country"))
        (df.cell i ("hobby")) (df.cell i ("affiliations")) (df.cell i ("url"))
        (if ("github_url") ∈ df.columns then df.cell i ("github_url") else (""))
        (if ("linkedin_url") ∈ df.columns then df.cell i ("linkedin_url") else ("")) := by
  obtain ⟨rest, hr⟩ := process_output_eq net df i
  rw [hr, List.take_append_of_le_length (by rw [print_summary_length]),
    List.take_of_length_le (by rw [print_summary_length])]

/-- C7: when the optional columns are absent the corresponding field is
the empty string, and the report lines at positions 7 and 8 render the
literal placeholder `N/A`. -/
theorem missing_optional_columns_render_placeholder
    (net : FetchArgs → Except String SeqRecord) (df : DataFrame) (i : Nat)
    (hg : ("github_url") ∉ df.columns) (hl : ("linkedin_url") ∉ df.columns) :
    ((if ("github_url") ∈ df.columns then df.cell i ("github_url") else ("")) = (""))
    ∧ (process_team_member net df i).1[7]? = some ("GitHub URL   : N/A")
    ∧ (process_team_member net df i).1[8]? = some ("LinkedIn URL : N/A") := by
  obtain ⟨rest, hr⟩ := process_output_eq net df i
  rw [if_neg hg, if_neg hl] at hr
  refine ⟨if_neg hg, ?_, ?_⟩
  · rw [hr, List.getElem?_append_left (by rw [print_summary_length]; omega)]
    rfl
  · rw [hr, List.getElem?_append_left (by rw [print_summary_length]; omega)]
    rfl

/-- A dataframe with the six required columns only, used as the concrete
input of the C7 witness. -/
def dfNoOpt : DataFrame :=
  { columns := [("name"), ("username"), ("country"), ("hobby"), ("affiliations"), ("url")],
    cell := fun _ c => c,
    nrows := 1 }

/-- A network oracle whose every request fails. -/
def netFail : FetchArgs → Except String SeqRecord :=
  fun _ => .error ("HTTP Error 400: Bad Request")

/-- Witness for C7 at the concrete dataframe without optional columns. -/
theorem missing_optional_columns_render_placeholder_witness :
    ((if ("github_url") ∈ dfNoOpt.columns then dfNoOpt.cell 0 ("github_url") else ("")) = (""))
    ∧ (process_team_member netFail dfNoOpt 0).1[7]? = some ("GitHub URL   : N/A")
    ∧ (process_team_member netFail dfNoOpt 0).1[8]? = some ("LinkedIn URL : N/A") :=
  missing_optional_columns_render_placeholder netFail dfNoOpt 0 (by decide) (by decide)

/-- C6: a fetch failure is caught inside `fetch_dna_sequence`, its
diagnostic line is part of the record's output, the record returns
normally, and the loop output continues with the remaining records in
order. -/
theorem fetch_failure_caught_and_loop_continues
    (net : FetchArgs → Except String SeqRecord) (df : DataFrame) (i : Nat)
    (rest : List Nat) (a msg : String) (s e : Option Int)
    (hp : parse_url (df.cell i ("url")) = .ok (some a, s, e))
    (hf : net (fetch_args a s e) = .error msg) :
    run_from net df (i :: rest) =
      progressLine df i :: (process_team_member net df i).1 ++ run_from net df rest
    ∧ ("⚠️  Error while fetching DNA sequence:") ∈ (process_team_member net df i).1 := by
  have htail : member_tail net (df.cell i ("url")) =
      ([("⚠️  Error while fetching DNA sequence:"), s!"   {msg}"], .ok false) := by
    simp only [member_tail, fetch_dna_sequence, hp, hf]
  have hres : (process_team_member net df i).2 = .ok false := by
    show (member_tail net (df.cell i ("url"))).2 = .ok false
    rw [htail]
  constructor
  · simp only [run_from]
    rw [hres]
    simp [Except.isOk, Except.toBool]
  · have h1 : (process_team_member net df i).1 =
        print_summary (df.cell i ("name")) (df.cell i ("username")) (df.cell i ("country"))
          (df.cell i ("hobby")) (df.cell i ("affiliations")) (df.cell i ("url"))
          (if ("github_url") ∈ df.columns then df.cell i ("github_url") else (""))
          (if ("linkedin_url") ∈ df.columns then df.cell i ("linkedin_url") else (""))
          ++ (member_tail net (df.cell i ("url"))).1 := rfl
    rw [h1, htail]
    simp

/-- A two-row dataframe whose URL field carries a full range request,
used as the concrete input of the C6 witness. -/
def dfTwo : DataFrame :=
  { columns := [("name"), ("username"), ("country"), ("hobby"), ("affiliations"), ("url")],
    cell := fun _ c =>
      if c == ("url") then ("https://www.ncbi.nlm.nih.gov/nuccore/NC_000010.11?from=5&to=15")
      else c,
    nrows := 2 }

/-- Witness for C6: two records, the first record's fetch fails, and the
run still emits the first record's block followed by the second record's
processing. -/
theorem fetch_failure_caught_and_loop_continues_witness :
    (run_from netFail dfTwo (0 :: [1]) =
      progressLine dfTwo 0 :: (process_team_member netFail dfTwo 0).1
        ++ run_from netFail dfTwo [1])
    ∧ ("⚠️  Error while fetching DNA sequence:") ∈ (process_team_member netFail dfTwo 0).1 :=
  fetch_failure_caught_and_loop_continues netFail dfTwo 0 [1] ("NC_000010.11")
    ("HTTP Error 400: Bad Request") (some 5) (some 15) (by rfl) (by rfl)

end PrintTeam
